import Mathlib

/-!
Verification development for the newsapp repository (a WebSocket news hub).

The repository contains several near-duplicate server iterations:
  * src/server.js       : a PostgreSQL program (lines 1-361) followed by an
                          SQLite program (lines 363-669);
  * src/unnamed/part_000: a PostgreSQL program (no categories, no reaction
                          uniqueness);
  * src/unnamed/part_001: an SQLite program (lines 1-384) followed by a
                          PostgreSQL program (lines 386-733); both declare
                          UNIQUE(article_id, client_id, type) on reactions and
                          assign timestamps server-side.

The embeddings below translate the database state, the repository operations
and the per-connection message handlers of these programs.  The relational
store itself is an external collaborator; it is modelled as enforcing the
declared constraints (NOT NULL, UNIQUE, referential integrity), as the spec
assumes of it.
-/

namespace NewsApp

/-- A row of the categories table: `categories(id, name)`. -/
structure CategoryRow where
  id : Nat
  name : String
deriving DecidableEq

/-- A row of the articles table:
`articles(id, title, content, image_url, timestamp, category_id)`. -/
structure ArticleRow where
  id : Nat
  title : String
  content : String
  imageUrl : Option String
  timestamp : Int
  categoryId : Option Nat
deriving DecidableEq

/-- A row of the comments table:
`comments(id, article_id, user_name, comment_text, timestamp)`. -/
structure CommentRow where
  id : Nat
  articleId : Nat
  userName : String
  commentText : String
  timestamp : Int
deriving DecidableEq

/-- A row of the reactions table:
`reactions(id, article_id, client_id, type, timestamp)`. -/
structure ReactionRow where
  id : Nat
  articleId : Nat
  clientId : String
  type : String
  timestamp : Int
deriving DecidableEq

/-- The database state: the four tables plus the auto-increment counters
(SERIAL / INTEGER PRIMARY KEY AUTOINCREMENT) of the three mutable tables. -/
structure Db where
  categories : List CategoryRow
  articles : List ArticleRow
  comments : List CommentRow
  reactions : List ReactionRow
  nextArticleId : Nat
  nextCommentId : Nat
  nextReactionId : Nat
deriving DecidableEq

/-- Errors raised by the store.  `notFound` is a foreign-key violation (the
referenced row does not exist, pg error 23503); `notNull` is a NOT NULL
violation (pg error 23502); `unavailable` stands for an unreachable store. -/
inductive DbError
  | notFound
  | notNull
  | unavailable
deriving DecidableEq

/-- Client payload of a PUBLISH_ARTICLE request: `data.article`.  Every field
may be absent (JavaScript `undefined`).  The `timestamp` field is whatever the
client chose to send; the part_001 handlers ignore it while the server.js and
part_000 handlers insert it verbatim. -/
structure ArticlePayload where
  title : Option String := none
  content : Option String := none
  imageUrl : Option String := none
  timestamp : Option Int := none
  categoryId : Option Nat := none
deriving DecidableEq

/-- Client payload of a POST_COMMENT request: `data.comment`. -/
structure CommentPayload where
  userName : Option String := none
  commentText : Option String := none
  timestamp : Option Int := none
deriving DecidableEq

/-- Client payload of a POST_REACTION request: `data.reaction`. -/
structure ReactionPayload where
  clientId : Option String := none
  type : Option String := none
  timestamp : Option Int := none
deriving DecidableEq

/-- A parsed inbound message: the mandatory `type` discriminator plus the
optional payload fields the handlers destructure. -/
structure Msg where
  type : String
  article : Option ArticlePayload := none
  articleId : Option Nat := none
  comment : Option CommentPayload := none
  reaction : Option ReactionPayload := none
deriving DecidableEq

/-- What a handler does with an outbound event: `reply` is `ws.send` to the
requesting connection only, `broadcast` is the fan-out to all clients, and
`close` would tear the connection down (no handler ever emits it). -/
inductive Output (ε : Type)
  | reply (e : ε)
  | broadcast (e : ε)
  | close
deriving DecidableEq

/-- Whether `close` was emitted. -/
def Output.isClose {ε : Type} : Output ε → Bool
  | .close => true
  | _ => false

/-- Whether the output goes to the requesting connection only. -/
def Output.isReply {ε : Type} : Output ε → Bool
  | .reply _ => true
  | _ => false

/-- SQL row test used by the handlers: does an article with this id exist. -/
def articleExists (db : Db) (aid : Nat) : Bool :=
  db.articles.any (fun a => a.id == aid)

/-- SQL row test: does a category with this id exist. -/
def categoryExists (db : Db) (cid : Nat) : Bool :=
  db.categories.any (fun c => c.id == cid)

/-- SQL row test backing the UNIQUE(article_id, client_id, type) constraint:
does a reaction row with this exact triple exist. -/
def reactionExists (db : Db) (aid : Nat) (cid rt : String) : Bool :=
  db.reactions.any (fun r => r.articleId == aid && r.clientId == cid && r.type == rt)

/-- JavaScript `s || d` on a possibly-absent string: `undefined` and the empty
string are falsy, so both fall back to the default. -/
def jsOr (s : Option String) (d : String) : String :=
  match s with
  | none => d
  | some v => if v = "" then d else v

/-- JavaScript truthiness of a possibly-absent numeric id: `undefined` and `0`
are falsy (used by `article.categoryId || null` and `row.category_id ? _ : _`). -/
def jsTruthyNat (o : Option Nat) : Option Nat :=
  match o with
  | some 0 => none
  | o => o

/-- Relation of `ORDER BY timestamp DESC` on articles. -/
abbrev newestFirst (a b : ArticleRow) : Prop := b.timestamp ≤ a.timestamp

/-- Relation of `ORDER BY timestamp ASC` on comments. -/
abbrev oldestFirst (a b : CommentRow) : Prop := a.timestamp ≤ b.timestamp

/-- Relation of `ORDER BY name` on categories. -/
abbrev byName (a b : CategoryRow) : Prop := a.name ≤ b.name

instance : IsTotal ArticleRow newestFirst := ⟨fun a b => le_total b.timestamp a.timestamp⟩

instance : IsTrans ArticleRow newestFirst := ⟨fun _ _ _ h1 h2 => le_trans h2 h1⟩

instance : IsTotal CommentRow oldestFirst := ⟨fun a b => le_total a.timestamp b.timestamp⟩

instance : IsTrans CommentRow oldestFirst := ⟨fun _ _ _ h1 h2 => le_trans h1 h2⟩

instance : IsTotal CategoryRow byName := ⟨fun a b => le_total a.name b.name⟩

instance : IsTrans CategoryRow byName := ⟨fun _ _ _ h1 h2 => le_trans h1 h2⟩

/-- A connected WebSocket peer as the broadcast routines see it: its
`readyState` and whether a `send` to it succeeds or throws. -/
structure WsClient where
  id : Nat
  readyState : Nat
  sendOk : Bool
deriving DecidableEq

/-- `WebSocket.OPEN`. -/
def OPEN : Nat := 1

/-!
Embedding of the first program of src/server.js (lines 1-361): the PostgreSQL
variant with categories.  Its schema (connectAndInitDb, lines 20-97) declares
NOT NULL on the inserted columns and foreign keys, but NO uniqueness
constraint on reactions (lines 77-87), and its handlers insert the
client-supplied `timestamp` fields verbatim.
-/

namespace ServerJsPg

/-- One comment as selected by getAllArticles (line 147):
`SELECT userName, commentText, timestamp`. -/
structure CommentSel where
  userName : String
  commentText : String
  timestamp : Int
deriving DecidableEq

/-- One reaction as selected by getAllArticles (line 154):
`SELECT clientId, type, timestamp`. -/
structure ReactionSel where
  clientId : String
  type : String
  timestamp : Int
deriving DecidableEq

/-- One article as shaped by getAllArticles (lines 159-168). -/
structure ArticleOut where
  id : Nat
  title : String
  content : String
  imageUrl : Option String
  timestamp : Int
  category : Option CategoryRow
  comments : List CommentSel
  reactions : List ReactionSel
deriving DecidableEq

/-- NEW_ARTICLE payload of addArticle (line 205):
`{ id: newId, ...article, category: categoryDetails }` — the spread of the
client payload plus the generated id and the resolved category. -/
structure NewArticleOut where
  id : Nat
  payload : ArticlePayload
  category : Option CategoryRow
deriving DecidableEq

/-- NEW_COMMENT payload of addComment (line 231): `{ id: newId, ...comment }`. -/
structure NewCommentOut where
  id : Nat
  payload : CommentPayload
deriving DecidableEq

/-- NEW_REACTION payload of addReaction (line 257): `{ id: newId, ...reaction }`. -/
structure NewReactionOut where
  id : Nat
  payload : ReactionPayload
deriving DecidableEq

/-- Outbound events of this program. -/
inductive Event
  | initialData (articles : List ArticleOut) (categories : List CategoryRow)
  | allArticles (articles : List ArticleOut)
  | allCategories (categories : List CategoryRow)
  | newArticle (article : NewArticleOut)
  | newComment (articleId : Nat) (comment : NewCommentOut)
  | newReaction (articleId : Nat) (reaction : NewReactionOut)
  | error (message : String)
deriving DecidableEq

/-- Driver error text is abstracted to a fixed string per error class; the
handlers only splice it into the generic `Server error: ...` reply. -/
def errText : DbError → String
  | .notFound => "insert or update violates foreign key constraint"
  | .notNull => "null value violates not-null constraint"
  | .unavailable => "store unavailable"

/-- The catch-all reply of ws.on('message') (line 350):
`{ type: 'ERROR', message: Server error: ... }`. -/
def serverError (e : DbError) : Event :=
  .error ("Server error: " ++ errText e)

/-- Reply when the handler dereferences an absent payload object
(a JavaScript TypeError caught by the same catch-all; message abstracted). -/
def typeErrorReply : Event :=
  .error "Server error: Cannot read properties of undefined."

/-- Category resolution of getAllArticles (line 165): LEFT JOIN categories,
then `article.category_name ? { id, name } : null` — JavaScript truthiness on
the joined name, so a NULL (unmatched) or empty name yields null. -/
def resolveCategoryByName (db : Db) (cid? : Option Nat) : Option CategoryRow :=
  match cid? with
  | none => none
  | some cid =>
    match db.categories.find? (fun c => c.id == cid) with
    | none => none
    | some c => if c.name = "" then none else some c

/-- getAllArticles (lines 124-179): articles ORDER BY timestamp DESC, per
article its comments ORDER BY timestamp ASC, its reactions (no ORDER BY), and
the resolved category. -/
def getAllArticles (db : Db) : List ArticleOut :=
  (List.insertionSort newestFirst db.articles).map (fun a =>
    { id := a.id, title := a.title, content := a.content, imageUrl := a.imageUrl,
      timestamp := a.timestamp,
      category := resolveCategoryByName db a.categoryId,
      comments := (List.insertionSort oldestFirst
          (db.comments.filter (fun c => c.articleId == a.id))).map
        (fun c => { userName := c.userName, commentText := c.commentText,
                    timestamp := c.timestamp }),
      reactions := (db.reactions.filter (fun r => r.articleId == a.id)).map
        (fun r => { clientId := r.clientId, type := r.type, timestamp := r.timestamp }) })

/-- getAllCategories (lines 102-115): `SELECT id, name FROM categories ORDER BY name ASC`. -/
def getAllCategories (db : Db) : List CategoryRow :=
  List.insertionSort byName db.categories

/-- addArticle (lines 187-214): inserts title, content, imageUrl and the
CLIENT-SUPPLIED timestamp, with `article.categoryId || null`; absent required
columns violate NOT NULL; a dangling category id violates the foreign key;
then resolves categoryDetails when `article.categoryId` is truthy. -/
def addArticle (db : Db) (a : ArticlePayload) : Except DbError (Db × NewArticleOut) :=
  match a.title, a.content, a.timestamp with
  | some title, some content, some ts =>
    let cid? := jsTruthyNat a.categoryId
    let row : ArticleRow :=
      { id := db.nextArticleId, title := title, content := content,
        imageUrl := a.imageUrl, timestamp := ts, categoryId := cid? }
    let db2 : Db :=
      { db with articles := db.articles ++ [row], nextArticleId := db.nextArticleId + 1 }
    match cid? with
    | some cid =>
      if categoryExists db cid then
        .ok (db2,
          { id := db.nextArticleId, payload := a,
            category := db.categories.find? (fun c => c.id == cid) })
      else .error .notFound
    | none => .ok (db2, { id := db.nextArticleId, payload := a, category := none })
  | _, _, _ => .error .notNull

/-- addComment (lines 222-240): inserts article_id, userName, commentText and
the CLIENT-SUPPLIED timestamp; fails on NOT NULL or on the article foreign key. -/
def addComment (db : Db) (aid? : Option Nat) (c : CommentPayload) :
    Except DbError (Db × NewCommentOut) :=
  match aid?, c.userName, c.commentText, c.timestamp with
  | some aid, some uname, some text, some ts =>
    if articleExists db aid then
      let row : CommentRow :=
        { id := db.nextCommentId, articleId := aid, userName := uname,
          commentText := text, timestamp := ts }
      .ok ({ db with comments := db.comments ++ [row], nextCommentId := db.nextCommentId + 1 },
           { id := db.nextCommentId, payload := c })
    else .error .notFound
  | _, _, _, _ => .error .notNull

/-- addReaction (lines 248-266): a plain INSERT of article_id, clientId, type
and the CLIENT-SUPPLIED timestamp.  The reactions table of this program has no
uniqueness constraint, so duplicate (article, client, type) triples insert
fine. -/
def addReaction (db : Db) (aid? : Option Nat) (r : ReactionPayload) :
    Except DbError (Db × NewReactionOut) :=
  match aid?, r.clientId, r.type, r.timestamp with
  | some aid, some cid, some rt, some ts =>
    if articleExists db aid then
      let row : ReactionRow :=
        { id := db.nextReactionId, articleId := aid, clientId := cid,
          type := rt, timestamp := ts }
      .ok ({ db with reactions := db.reactions ++ [row], nextReactionId := db.nextReactionId + 1 },
           { id := db.nextReactionId, payload := r })
    else .error .notFound
  | _, _, _, _ => .error .notNull

/-- broadcast (lines 272-282): iterate all clients, skip those whose
readyState is not OPEN, and wrap each send in try/catch so a throwing send is
only logged and the loop continues.  Returns the ids that received the
message. -/
def broadcastDeliver : List WsClient → List Nat
  | [] => []
  | c :: cs =>
    if c.readyState == OPEN then
      if c.sendOk then c.id :: broadcastDeliver cs
      else broadcastDeliver cs
    else broadcastDeliver cs

/-- wss.on('connection') (lines 285-302): fetch articles and categories and
send them as one INITIAL_DATA to the new connection only; on failure send an
ERROR to it instead; the connection is never closed by this path. -/
def onConnection (db : Db) (storeUp : Bool) : List (Output Event) :=
  if storeUp then
    [.reply (.initialData (getAllArticles db) (getAllCategories db))]
  else
    [.reply (.error "Failed to load initial data.")]

/-- The PUBLISH_ARTICLE case (lines 310-316). -/
def handlePublish (db : Db) (a? : Option ArticlePayload) : Db × List (Output Event) :=
  match a? with
  | some a =>
    match addArticle db a with
    | .ok (db2, out) => (db2, [.broadcast (.newArticle out)])
    | .error e => (db, [.reply (serverError e)])
  | none => (db, [.reply typeErrorReply])

/-- The POST_COMMENT case (lines 317-323). -/
def handleComment (db : Db) (aid? : Option Nat) (c? : Option CommentPayload) :
    Db × List (Output Event) :=
  match c? with
  | some c =>
    match addComment db aid? c with
    | .ok (db2, out) => (db2, [.broadcast (.newComment (aid?.getD 0) out)])
    | .error e => (db, [.reply (serverError e)])
  | none => (db, [.reply typeErrorReply])

/-- The POST_REACTION case (lines 324-330). -/
def handleReaction (db : Db) (aid? : Option Nat) (r? : Option ReactionPayload) :
    Db × List (Output Event) :=
  match r? with
  | some r =>
    match addReaction db aid? r with
    | .ok (db2, out) => (db2, [.broadcast (.newReaction (aid?.getD 0) out)])
    | .error e => (db, [.reply (serverError e)])
  | none => (db, [.reply typeErrorReply])

/-- ws.on('message') (lines 304-352): dispatch on data.type.  The default case
(lines 345-347) only logs `Unknown message type` — no reply, no write, no
broadcast. -/
def handleMessage (db : Db) (msg : Msg) : Db × List (Output Event) :=
  if msg.type == "PUBLISH_ARTICLE" then handlePublish db msg.article
  else if msg.type == "POST_COMMENT" then handleComment db msg.articleId msg.comment
  else if msg.type == "POST_REACTION" then handleReaction db msg.articleId msg.reaction
  else if msg.type == "GET_ALL_ARTICLES" then (db, [.reply (.allArticles (getAllArticles db))])
  else if msg.type == "GET_ALL_CATEGORIES" then (db, [.reply (.allCategories (getAllCategories db))])
  else (db, [])

end ServerJsPg

/-!
Embedding of src/unnamed/part_001.  The file holds an SQLite program
(lines 1-384) and a PostgreSQL program (lines 386-733); both declare
`UNIQUE(article_id, client_id, type)` on reactions, assign every timestamp
with `Date.now()` on the server, send INITIAL_DATA on connect and reply
`Unknown message type: <type>` to unrecognized types.

The handler definitions without a `Sqlite` suffix embed the PostgreSQL
program.  The SQLite program promisifies `db.run` (line 21), but sqlite3's
`run` completion callback receives only the error — `lastID` and `changes`
are exposed on `this` — so the promisified `db.run` resolves `undefined` and
every mutation handler of that program throws a TypeError reading
`insertArticleResult.lastID`, `insertCommentResult.lastID` or
`insertReactionResult.changes` AFTER the insert has been applied: the row
persists (when the constraints admit it) but the success reply is never
reached, no NEW_* event is ever broadcast, and the catch in scope replies an
error instead.  These divergent mutation paths are embedded separately as
the `...Sqlite` definitions below.  The connection path is unaffected
(`db.all` and `db.get` callbacks do receive the rows), so `snapshot` and
`onConnection` cover both programs.  Store constraints (NOT NULL, UNIQUE,
referential integrity) are modelled as enforced, as the spec assumes of the
store.
-/

namespace Part001

/-- One comment as shipped to clients (lines 541-542, 642-647):
`{ id, userName, commentText, timestamp }`. -/
structure CommentOut where
  id : Nat
  userName : String
  commentText : String
  timestamp : Int
deriving DecidableEq

/-- One reaction as shipped to clients (lines 543-544, 675-680):
`{ id, type, clientId, timestamp }`. -/
structure ReactionOut where
  id : Nat
  type : String
  clientId : String
  timestamp : Int
deriving DecidableEq

/-- The article JSON shape (lines 551-561, 608-618). -/
structure Article where
  id : Nat
  title : String
  content : String
  imageUrl : Option String
  timestamp : Int
  categoryId : Option Nat
  category : Option CategoryRow
  comments : List CommentOut
  reactions : List ReactionOut
deriving DecidableEq

/-- Outbound events of this program. -/
inductive Event
  | initialData (articles : List Article) (categories : List CategoryRow)
  | newArticle (article : Article)
  | newComment (articleId : Nat) (comment : CommentOut)
  | newReaction (articleId : Nat) (reaction : ReactionOut)
  | error (message : String)
deriving DecidableEq

/-- Category resolution used for outgoing articles (lines 558, 615):
`row.category_id ? { id: row.category_id, name: row.category_name } : null` —
JavaScript truthiness on the id, so 0 and NULL give null.  A dangling
category_id cannot arise under the schema's foreign key. -/
def resolveCategory (db : Db) (cid? : Option Nat) : Option CategoryRow :=
  match jsTruthyNat cid? with
  | none => none
  | some cid => db.categories.find? (fun c => c.id == cid)

/-- The connection snapshot (lines 526-561 of the pg program): all articles
LEFT JOINed with categories ORDER BY timestamp DESC, with comments and
reactions aggregated per article in table order (the subqueries have no ORDER
BY) and the category resolved. -/
def snapshot (db : Db) : List Article :=
  (List.insertionSort newestFirst db.articles).map (fun a =>
    { id := a.id, title := a.title, content := a.content, imageUrl := a.imageUrl,
      timestamp := a.timestamp, categoryId := a.categoryId,
      category := resolveCategory db a.categoryId,
      comments := (db.comments.filter (fun c => c.articleId == a.id)).map
        (fun c => { id := c.id, userName := c.userName, commentText := c.commentText,
                    timestamp := c.timestamp }),
      reactions := (db.reactions.filter (fun r => r.articleId == a.id)).map
        (fun r => { id := r.id, type := r.type, clientId := r.clientId,
                    timestamp := r.timestamp }) })

/-- `SELECT id, name FROM categories ORDER BY name` (lines 202, 564). -/
def categoriesByName (db : Db) : List CategoryRow :=
  List.insertionSort byName db.categories

/-- wss.on('connection') (lines 526-577): send the snapshot plus the category
list as one INITIAL_DATA event to the new connection only; if the fetch
fails, send an ERROR event to it instead; the connection is never closed by
this path. -/
def onConnection (db : Db) (storeUp : Bool) : List (Output Event) :=
  if storeUp then
    [.reply (.initialData (snapshot db) (categoriesByName db))]
  else
    [.reply (.error "Failed to load initial data.")]

/-- The insert of the PUBLISH_ARTICLE case (lines 591-625) after its NOT NULL
and foreign-key checks passed: insert with the server timestamp `now`
(`Date.now()`, line 588 — the client payload's timestamp field is never
read), then broadcast the article built from the RETURNING row with empty
comments and reactions. -/
def publishInsert (db : Db) (now : Int) (title content : String)
    (img : Option String) (cid? : Option Nat) : Db × List (Output Event) :=
  let row : ArticleRow :=
    { id := db.nextArticleId, title := title, content := content,
      imageUrl := img, timestamp := now, categoryId := cid? }
  ({ db with articles := db.articles ++ [row], nextArticleId := db.nextArticleId + 1 },
   [.broadcast (.newArticle
     { id := db.nextArticleId, title := title, content := content, imageUrl := img,
       timestamp := now, categoryId := cid?, category := resolveCategory db cid?,
       comments := [], reactions := [] })])

/-- The PUBLISH_ARTICLE case of the PostgreSQL program (lines 586-626).  A
missing article object is a TypeError, a missing title/content a NOT NULL
violation and a dangling
categoryId a foreign-key violation; all three are caught by the outer catch
(lines 708-712) which replies the generic invalid-format message. -/
def handlePublish (db : Db) (now : Int) (a? : Option ArticlePayload) :
    Db × List (Output Event) :=
  match a? with
  | some a =>
    match a.title, a.content with
    | some title, some content =>
      match a.categoryId with
      | some cid =>
        if categoryExists db cid then publishInsert db now title content a.imageUrl (some cid)
        else (db, [.reply (.error "Invalid message format or server error.")])
      | none => publishInsert db now title content a.imageUrl none
    | _, _ => (db, [.reply (.error "Invalid message format or server error.")])
  | none => (db, [.reply (.error "Invalid message format or server error.")])

/-- The comments insert (lines 634-638): fails with a foreign-key violation
(pg error 23503, the spec's NotFound) when the article does not exist. -/
def insertComment (db : Db) (aid : Nat) (uname text : String) (ts : Int) :
    Except DbError (Db × CommentRow) :=
  if articleExists db aid then
    let row : CommentRow :=
      { id := db.nextCommentId, articleId := aid, userName := uname,
        commentText := text, timestamp := ts }
    .ok ({ db with comments := db.comments ++ [row], nextCommentId := db.nextCommentId + 1 },
         row)
  else .error DbError.notFound

/-- The POST_COMMENT case of the PostgreSQL program (lines 628-655): inserts
with the server timestamp `now` (`Date.now()`, line 631) and `userName || 'Anonymous'`, then broadcasts
NEW_COMMENT; any store error propagates to the outer catch (lines 708-712),
which replies the generic invalid-format message to the sender only. -/
def handleComment (db : Db) (now : Int) (aid? : Option Nat) (c? : Option CommentPayload) :
    Db × List (Output Event) :=
  match aid?, c? with
  | some aid, some c =>
    match c.commentText with
    | some text =>
      match insertComment db aid (jsOr c.userName "Anonymous") text now with
      | .ok (db2, row) =>
        (db2, [.broadcast (.newComment aid
          { id := row.id, userName := row.userName, commentText := row.commentText,
            timestamp := row.timestamp })])
      | .error _ => (db, [.reply (.error "Invalid message format or server error.")])
    | none => (db, [.reply (.error "Invalid message format or server error.")])
  | _, _ => (db, [.reply (.error "Invalid message format or server error.")])

/-- The POST_REACTION case of the PostgreSQL program (lines 657-700): insert
with the server timestamp `now` (`Date.now()`, line 661).  A
UNIQUE(article_id, client_id, type) violation (pg error 23505) replies the
duplicate message to the sender only and changes nothing; any other store
failure replies the generic reaction failure message (the inner catch, lines
688-699).  The SQLite program's POST_REACTION case never reaches its
`changes > 0` / duplicate branches (promisified `db.run` resolves undefined)
and is embedded separately below. -/
def handleReaction (db : Db) (now : Int) (aid? : Option Nat) (r? : Option ReactionPayload) :
    Db × List (Output Event) :=
  match aid?, r? with
  | some aid, some r =>
    match r.clientId, r.type with
    | some cid, some rt =>
      if articleExists db aid then
        if reactionExists db aid cid rt then
          (db, [.reply (.error "You have already reacted with this type.")])
        else
          let row : ReactionRow :=
            { id := db.nextReactionId, articleId := aid, clientId := cid,
              type := rt, timestamp := now }
          let db2 : Db :=
            { db with reactions := db.reactions ++ [row], nextReactionId := db.nextReactionId + 1 }
          (db2,
           [.broadcast (.newReaction aid
             { id := db.nextReactionId, type := rt, clientId := cid, timestamp := now })])
      else (db, [.reply (.error "Failed to post reaction due to server error.")])
    | _, _ => (db, [.reply (.error "Failed to post reaction due to server error.")])
  | none, some _ => (db, [.reply (.error "Failed to post reaction due to server error.")])
  | _, none => (db, [.reply (.error "Invalid message format or server error.")])

/-- ws.on('message') of the PostgreSQL program (lines 580-713): dispatch on
data.type.  The default case (lines 702-706) replies an ERROR whose message
is `Unknown message type: ` followed by the received type, to the sender
only, touching neither the store nor the other clients.  (The SQLite
program's dispatcher, lines 217-354, is embedded as handleMessageSqlite.) -/
def handleMessage (db : Db) (now : Int) (msg : Msg) : Db × List (Output Event) :=
  if msg.type == "PUBLISH_ARTICLE" then handlePublish db now msg.article
  else if msg.type == "POST_COMMENT" then handleComment db now msg.articleId msg.comment
  else if msg.type == "POST_REACTION" then handleReaction db now msg.articleId msg.reaction
  else (db, [.reply (.error ("Unknown message type: " ++ msg.type))])

/-- The insert of the SQLite program's PUBLISH_ARTICLE case (lines 228-233)
after its constraint checks passed: the row is persisted with the server
timestamp, but the promisified `db.run` resolves undefined, so reading
`insertArticleResult.lastID` (line 233) throws a TypeError; the outer catch
(lines 349-353) replies the generic invalid-format message and no
NEW_ARTICLE is ever broadcast. -/
def publishInsertSqlite (db : Db) (now : Int) (title content : String)
    (img : Option String) (cid? : Option Nat) : Db × List (Output Event) :=
  ({ db with articles := db.articles ++ [{ id := db.nextArticleId, title := title, content := content, imageUrl := img, timestamp := now, categoryId := cid? }], nextArticleId := db.nextArticleId + 1 },
   [.reply (.error "Invalid message format or server error.")])

/-- The PUBLISH_ARTICLE case of the SQLite program (lines 223-268): the same
branch structure as the PostgreSQL case, but every path ends in the generic
invalid-format reply — a constraint failure rejects the insert, and a
successful insert is followed by the TypeError on `.lastID` — so no article
is ever broadcast by this program. -/
def handlePublishSqlite (db : Db) (now : Int) (a? : Option ArticlePayload) :
    Db × List (Output Event) :=
  match a? with
  | some a =>
    match a.title, a.content with
    | some title, some content =>
      match a.categoryId with
      | some cid =>
        if categoryExists db cid then publishInsertSqlite db now title content a.imageUrl (some cid)
        else (db, [.reply (.error "Invalid message format or server error.")])
      | none => publishInsertSqlite db now title content a.imageUrl none
    | _, _ => (db, [.reply (.error "Invalid message format or server error.")])
  | none => (db, [.reply (.error "Invalid message format or server error.")])

/-- The POST_COMMENT case of the SQLite program (lines 270-297): a passing
insert persists the comment row (server timestamp, `userName || 'Anonymous'`)
and then throws the TypeError on `insertCommentResult.lastID` (line 281); a
failing insert rejects; either way the outer catch replies the generic
invalid-format message and no NEW_COMMENT is ever broadcast. -/
def handleCommentSqlite (db : Db) (now : Int) (aid? : Option Nat)
    (c? : Option CommentPayload) : Db × List (Output Event) :=
  match aid?, c? with
  | some aid, some c =>
    match c.commentText with
    | some text =>
      match insertComment db aid (jsOr c.userName "Anonymous") text now with
      | .ok (db2, _) => (db2, [.reply (.error "Invalid message format or server error.")])
      | .error _ => (db, [.reply (.error "Invalid message format or server error.")])
    | none => (db, [.reply (.error "Invalid message format or server error.")])
  | _, _ => (db, [.reply (.error "Invalid message format or server error.")])

/-- The POST_REACTION case of the SQLite program (lines 299-341): `INSERT OR
IGNORE` respects the UNIQUE(article_id, client_id, type) constraint, so a
duplicate triple inserts nothing and a fresh triple persists its row; in both
outcomes the promisified `db.run` resolves undefined, reading
`insertReactionResult.changes` (line 313) throws a TypeError, and the inner
catch (lines 336-340) replies "Failed to post reaction due to server
error." — the duplicate message and the NEW_REACTION broadcast are
unreachable in this program.  A missing reaction object is a TypeError at the
destructuring, caught by the outer catch instead. -/
def handleReactionSqlite (db : Db) (now : Int) (aid? : Option Nat)
    (r? : Option ReactionPayload) : Db × List (Output Event) :=
  match aid?, r? with
  | some aid, some r =>
    match r.clientId, r.type with
    | some cid, some rt =>
      if articleExists db aid then
        if reactionExists db aid cid rt then
          (db, [.reply (.error "Failed to post reaction due to server error.")])
        else
          let row : ReactionRow :=
            { id := db.nextReactionId, articleId := aid, clientId := cid,
              type := rt, timestamp := now }
          let db2 : Db :=
            { db with reactions := db.reactions ++ [row], nextReactionId := db.nextReactionId + 1 }
          (db2, [.reply (.error "Failed to post reaction due to server error.")])
      else (db, [.reply (.error "Failed to post reaction due to server error.")])
    | _, _ => (db, [.reply (.error "Failed to post reaction due to server error.")])
  | none, some _ => (db, [.reply (.error "Failed to post reaction due to server error.")])
  | _, none => (db, [.reply (.error "Invalid message format or server error.")])

/-- ws.on('message') of the SQLite program (lines 217-354): the same dispatch
on data.type; the default case (lines 343-347) replies the same
`Unknown message type: <type>` error as the PostgreSQL program. -/
def handleMessageSqlite (db : Db) (now : Int) (msg : Msg) : Db × List (Output Event) :=
  if msg.type == "PUBLISH_ARTICLE" then handlePublishSqlite db now msg.article
  else if msg.type == "POST_COMMENT" then handleCommentSqlite db now msg.articleId msg.comment
  else if msg.type == "POST_REACTION" then handleReactionSqlite db now msg.articleId msg.reaction
  else (db, [.reply (.error ("Unknown message type: " ++ msg.type))])

/-- The inline NEW_* fan-out loops (lines 621-625, 649-654, 682-687): iterate
all clients, skip those not OPEN, send with NO per-send try/catch — a
throwing send propagates out of the forEach, so the clients after the failing
one are never reached.  Returns the ids actually delivered to and whether the
loop ran to completion. -/
def fanOut : List WsClient → List Nat × Bool
  | [] => ([], true)
  | c :: cs =>
    if c.readyState == OPEN then
      if c.sendOk then ((fanOut cs).1.cons c.id, (fanOut cs).2)
      else ([], false)
    else fanOut cs

end Part001

/-!
Embedding of src/unnamed/part_000: the PostgreSQL program without categories
and without a reactions uniqueness constraint.  Only its connection path is
needed here: on connect it sends an ALL_ARTICLES event (lines 237-249), not
INITIAL_DATA, and fetches no categories.
-/

namespace Part000

/-- The article JSON shape of part_000 (lines 121-129): no category field. -/
structure ArticleOut where
  id : Nat
  title : String
  content : String
  imageUrl : Option String
  timestamp : Int
  comments : List ServerJsPg.CommentSel
  reactions : List ServerJsPg.ReactionSel
deriving DecidableEq

/-- Outbound wire events.  INITIAL_DATA is part of the protocol the spec
describes; this program never emits it. -/
inductive Event
  | initialData (articles : List ArticleOut) (categories : List CategoryRow)
  | allArticles (articles : List ArticleOut)
  | newArticle (article : ArticleOut)
  | error (message : String)
deriving DecidableEq

/-- getAllArticles (lines 93-140): articles ORDER BY timestamp DESC, comments
ORDER BY timestamp ASC, reactions unordered; no category resolution. -/
def getAllArticles (db : Db) : List ArticleOut :=
  (List.insertionSort newestFirst db.articles).map (fun a =>
    { id := a.id, title := a.title, content := a.content, imageUrl := a.imageUrl,
      timestamp := a.timestamp,
      comments := (List.insertionSort oldestFirst
          (db.comments.filter (fun c => c.articleId == a.id))).map
        (fun c => { userName := c.userName, commentText := c.commentText,
                    timestamp := c.timestamp }),
      reactions := (db.reactions.filter (fun r => r.articleId == a.id)).map
        (fun r => { clientId := r.clientId, type := r.type, timestamp := r.timestamp }) })

/-- wss.on('connection') (lines 237-249): send the article list as an
ALL_ARTICLES event to the new connection only (no categories, no
INITIAL_DATA); on failure send an ERROR to it; never closes the connection. -/
def onConnection (db : Db) (storeUp : Bool) : List (Output Event) :=
  if storeUp then [.reply (.allArticles (getAllArticles db))]
  else [.reply (.error "Failed to load articles.")]

/-- Whether an output carries an INITIAL_DATA event. -/
def isInitialData : Output Event → Bool
  | .reply (.initialData _ _) => true
  | .broadcast (.initialData _ _) => true
  | _ => false

end Part000

/-!
A small execution model for the ordering of persistence and publication
(claim about persist-then-publish).  Each mutation handler of the servers is
an async function whose body, in program order, first awaits the store insert
and only then runs the broadcast fan-out (e.g. part_001 lines 591-625:
`await pgClient.query(INSERT ...)` precedes `wss.clients.forEach(...)`;
server.js lines 310-330: `await addArticle(...)` precedes `broadcast(...)`).
The event loop may interleave the steps of different requests at the await
suspension points, so an execution is an arbitrary interleaving of the
per-request step sequences.
-/

namespace SessionSched

/-- An observable step of the k-th request of a session: the handler is
invoked (`recv`), its store insert completes (`insertDone`), its broadcast is
emitted (`broadcastSent`). -/
inductive Step
  | recv (k : Nat)
  | insertDone (k : Nat)
  | broadcastSent (k : Nat)
deriving DecidableEq

/-- The program-order steps of the k-th mutation request, as the handler code
sequences them: invocation, then the awaited insert, then the fan-out. -/
def requestProgram (k : Nat) : List Step :=
  [.recv k, .insertDone k, .broadcastSent k]

/-- The step programs of a session that received n mutation requests. -/
def sessionPrograms (n : Nat) : List (List Step) :=
  (List.range n).map requestProgram

/-- The cooperative scheduler: at every point any request whose program has
steps left may run its next step; the trace is the emitted step sequence.
This over-approximates the Node event loop (which additionally starts
handlers in arrival order). -/
inductive Sched : List (List Step) → List Step → Prop
  | done (progs : List (List Step)) (h : ∀ p ∈ progs, p = []) : Sched progs []
  | take (i : Nat) (s : Step) (rest tr : List Step) (progs : List (List Step))
      (hi : i < progs.length) (hget : progs.get ⟨i, hi⟩ = s :: rest)
      (hrec : Sched (progs.set i rest) tr) : Sched progs (s :: tr)

end SessionSched

/-!
Top-level `const` declarations of the concatenated files (for the claim that
each file redeclares const bindings and cannot be loaded as one module).
-/

/-- The names bound by top-level `const` declarations of src/server.js, in
source order: lines 2, 3, 4, 7, 8, 12 of the first program and lines 364,
365, 366, 370, 371, 379, 380 of the second. -/
def serverJsTopLevelConsts : List String :=
  ["WebSocket", "Pool", "path", "PORT", "wss", "pool",
   "WebSocket", "sqlite3", "path", "PORT", "wss", "DB_PATH", "db"]

/-- The names bound by top-level `const` declarations of
src/unnamed/part_001, in source order: lines 3, 4, 5, 6, 10, 11, 125, 137,
369 of the first program and lines 386, 387, 388, 394, 401, 512, 524, 728 of
the second. -/
def part001TopLevelConsts : List String :=
  ["WebSocket", "http", "sqlite3", "util", "DB_PATH", "db", "server", "wss", "PORT",
   "WebSocket", "http", "Client", "DATABASE_URL", "pgClient", "server", "wss", "PORT"]

/-- Whether a name is declared twice. -/
def hasDuplicate (l : List String) : Bool :=
  l.any (fun n => 1 < l.count n)

/-- ECMAScript early-error rule for scripts and modules (modelling the
JavaScript engine, an external collaborator): two lexical (`const`)
declarations of the same name in the same scope are a SyntaxError raised at
parse time, so the file fails to load and none of its statements run. -/
def moduleLoads (consts : List String) : Bool :=
  !hasDuplicate consts

/-! Concrete sample data used by the counterexamples and witnesses. -/

/-- The empty database with fresh id counters. -/
def dbEmpty : Db :=
  { categories := [], articles := [], comments := [], reactions := [],
    nextArticleId := 1, nextCommentId := 1, nextReactionId := 1 }

/-- An article row. -/
def art1 : ArticleRow :=
  { id := 1, title := "T", content := "B", imageUrl := none,
    timestamp := 100, categoryId := none }

/-- A database holding one article. -/
def dbOneArticle : Db :=
  { dbEmpty with articles := [art1], nextArticleId := 2 }

/-- A reaction row: client "x" reacted "love" to article 1. -/
def reactLove : ReactionRow :=
  { id := 1, articleId := 1, clientId := "x", type := "love", timestamp := 5 }

/-- A database in which client "x" already reacted "love" to article 1. -/
def dbDupSetup : Db :=
  { dbOneArticle with reactions := [reactLove], nextReactionId := 2 }

/-- A POST_REACTION message for the same (1, "x", "love") triple. -/
def msgReactLove : Msg :=
  { type := "POST_REACTION", articleId := some 1,
    reaction := some { clientId := some "x", type := some "love", timestamp := some 6 } }

/-- A PUBLISH_ARTICLE message whose payload carries a client-chosen
timestamp. -/
def msgPubClientTs : Msg :=
  { type := "PUBLISH_ARTICLE",
    article := some { title := some "T2", content := some "B2", timestamp := some 12345 } }

/-- A PUBLISH_ARTICLE message with empty title and empty content. -/
def msgPubEmpty : Msg :=
  { type := "PUBLISH_ARTICLE", article := some { title := some "", content := some "" } }

/-- Three open clients; the middle one's send throws. -/
def clients3 : List WsClient :=
  [{ id := 1, readyState := 1, sendOk := true },
   { id := 2, readyState := 1, sendOk := false },
   { id := 3, readyState := 1, sendOk := true }]

/-- A database for the listArticles shape claim: one category, two articles
(one categorized), two comments on article 1 (inserted newest-first) and one
reaction. -/
def dbShape : Db :=
  { categories := [{ id := 1, name := "General" }],
    articles :=
      [{ id := 1, title := "A1", content := "C1", imageUrl := none,
         timestamp := 50, categoryId := some 1 },
       { id := 2, title := "A2", content := "C2", imageUrl := some "i.png",
         timestamp := 80, categoryId := none }],
    comments :=
      [{ id := 1, articleId := 1, userName := "alice", commentText := "hi",
         timestamp := 70 },
       { id := 2, articleId := 1, userName := "bob", commentText := "yo",
         timestamp := 60 }],
    reactions := [reactLove],
    nextArticleId := 3, nextCommentId := 3, nextReactionId := 2 }

end NewsApp

open NewsApp

/-!
Claim theorems.  Helper lemmas come first, then one theorem per claim (with
counterexamples and witnesses where required).
-/

/-- Claim C10: src/server.js and src/unnamed/part_001 each concatenate two
complete server programs and re-declare the same top-level const bindings
(WebSocket, PORT and wss twice in server.js; WebSocket and http twice in
part_001), so by the ECMAScript duplicate-lexical-declaration early error
neither file loads as a single JavaScript module and none of its runtime
behavior is reachable. -/
theorem c10_duplicate_const_declarations :
    serverJsTopLevelConsts.count "WebSocket" = 2
  ∧ serverJsTopLevelConsts.count "PORT" = 2
  ∧ serverJsTopLevelConsts.count "wss" = 2
  ∧ part001TopLevelConsts.count "WebSocket" = 2
  ∧ part001TopLevelConsts.count "http" = 2
  ∧ moduleLoads serverJsTopLevelConsts = false
  ∧ moduleLoads part001TopLevelConsts = false := by
  decide

/-- Claim C1, counterexample: in the server.js program the reactions table has
no uniqueness constraint and addReaction is a plain INSERT, so a POST_REACTION
for a (article, client, type) triple that already has a row inserts a second
row for the same triple and broadcasts NEW_REACTION again — the claim's
rejection of duplicates fails on this program. -/
theorem c1_counterexample :
    (ServerJsPg.handleMessage dbDupSetup msgReactLove).1.reactions.countP
      (fun r => r.articleId == 1 && r.clientId == "x" && r.type == "love") = 2
  ∧ (ServerJsPg.handleMessage dbDupSetup msgReactLove).2 =
      [Output.broadcast (ServerJsPg.Event.newReaction 1
        { id := 2, payload := { clientId := some "x", type := some "love", timestamp := some 6 } })] := by
  decide

/-- Claim C2, counterexample: the server.js PUBLISH_ARTICLE path stores and
broadcasts the timestamp taken from the client's payload (12345 here); its
handler has no server-clock input at all, so the timestamp is not assigned at
processing time. -/
theorem c2_counterexample :
    (ServerJsPg.handleMessage dbEmpty msgPubClientTs).1.articles =
      [{ id := 1, title := "T2", content := "B2", imageUrl := none, timestamp := 12345, categoryId := none }]
  ∧ (ServerJsPg.handleMessage dbEmpty msgPubClientTs).2 =
      [Output.broadcast (ServerJsPg.Event.newArticle
        { id := 1, payload := { title := some "T2", content := some "B2", timestamp := some 12345 }, category := none })] := by
  decide

/-- Claim C3: evaluating the part_001 PUBLISH_ARTICLE handler at the failing
input (title and content both empty) shows the article row IS inserted and
NEW_ARTICLE IS broadcast — no ValidationError, contradicting the claim (which
the spec itself marks as an invariant the source variants skip). -/
theorem c3_empty_publish_inserted :
    Part001.handleMessage dbEmpty 777 msgPubEmpty =
      ({ dbEmpty with articles := [{ id := 1, title := "", content := "", imageUrl := none, timestamp := 777, categoryId := none }], nextArticleId := 2 },
       [Output.broadcast (Part001.Event.newArticle { id := 1, title := "", content := "", imageUrl := none, timestamp := 777, categoryId := none, category := none, comments := [], reactions := [] })]) := by
  decide

/-- Claim C4, counterexample: on a new connection the part_000 program sends
an ALL_ARTICLES event with the article list only — not a single INITIAL_DATA
event with articles plus categories as the claim states. -/
theorem c4_counterexample :
    Part000.onConnection dbOneArticle true =
      [Output.reply (Part000.Event.allArticles
        [{ id := 1, title := "T", content := "B", imageUrl := none, timestamp := 100, comments := [], reactions := [] }])]
  ∧ (Part000.onConnection dbOneArticle true).all (fun o => !Part000.isInitialData o) = true := by
  decide

/-- Claim C7, counterexample: the part_001 inline fan-out has no per-send
guard, so with three open clients whose middle send throws, the loop aborts:
only client 1 is delivered to and open client 3 is skipped — one failing send
does prevent delivery to the remaining sessions.  The guarded broadcast() of
server.js delivers to 1 and 3 on the same input. -/
theorem c7_counterexample :
    Part001.fanOut clients3 = ([1], false)
  ∧ ({ id := 3, readyState := 1, sendOk := true } : WsClient) ∈ clients3
  ∧ 3 ∉ (Part001.fanOut clients3).1
  ∧ ServerJsPg.broadcastDeliver clients3 = [1, 3] := by
  decide

/-- Claim C9, counterexample: the server.js ws.on('message') default case
only logs the unknown type — the sender receives no ERROR reply at all
(though indeed no store write and no broadcast happen). -/
theorem c9_counterexample :
    ServerJsPg.handleMessage dbOneArticle { type := "BOGUS" } = (dbOneArticle, []) := by
  decide

/-- Dispatch of ws.on('message') in part_001 for PUBLISH_ARTICLE. -/
theorem part001_msg_publish (db : Db) (now : Int) (a? : Option ArticlePayload) :
    Part001.handleMessage db now { type := "PUBLISH_ARTICLE", article := a? } =
      Part001.handlePublish db now a? := rfl

/-- Dispatch of ws.on('message') in part_001 for POST_COMMENT. -/
theorem part001_msg_comment (db : Db) (now : Int) (aid? : Option Nat)
    (c? : Option CommentPayload) :
    Part001.handleMessage db now { type := "POST_COMMENT", articleId := aid?, comment := c? } =
      Part001.handleComment db now aid? c? := rfl

/-- Dispatch of ws.on('message') in part_001 for POST_REACTION. -/
theorem part001_msg_reaction (db : Db) (now : Int) (aid? : Option Nat)
    (r? : Option ReactionPayload) :
    Part001.handleMessage db now { type := "POST_REACTION", articleId := aid?, reaction := r? } =
      Part001.handleReaction db now aid? r? := rfl

/-- Dispatch of ws.on('message') of the part_001 SQLite program for
POST_REACTION. -/
theorem part001_sqlite_msg_reaction (db : Db) (now : Int) (aid? : Option Nat)
    (r? : Option ReactionPayload) :
    Part001.handleMessageSqlite db now { type := "POST_REACTION", articleId := aid?, reaction := r? } =
      Part001.handleReactionSqlite db now aid? r? := rfl

/-- Dispatch of ws.on('message') in server.js for PUBLISH_ARTICLE. -/
theorem serverjs_msg_publish (db : Db) (a? : Option ArticlePayload) :
    ServerJsPg.handleMessage db { type := "PUBLISH_ARTICLE", article := a? } =
      ServerJsPg.handlePublish db a? := rfl

/-- Dispatch of ws.on('message') in server.js for POST_COMMENT. -/
theorem serverjs_msg_comment (db : Db) (aid? : Option Nat) (c? : Option CommentPayload) :
    ServerJsPg.handleMessage db { type := "POST_COMMENT", articleId := aid?, comment := c? } =
      ServerJsPg.handleComment db aid? c? := rfl

/-- Dispatch of ws.on('message') in server.js for POST_REACTION. -/
theorem serverjs_msg_reaction (db : Db) (aid? : Option Nat) (r? : Option ReactionPayload) :
    ServerJsPg.handleMessage db { type := "POST_REACTION", articleId := aid?, reaction := r? } =
      ServerJsPg.handleReaction db aid? r? := rfl

/-- Claim C1 (amended): in the part_001 PostgreSQL program, whose reactions
table declares UNIQUE(article_id, client_id, type), a first POST_REACTION for
a triple inserts exactly one row and broadcasts NEW_REACTION, and a second
POST_REACTION for the same triple is rejected with the sender-only ERROR
"You have already reacted with this type.", inserts no row, overwrites
nothing and broadcasts nothing.  In the part_001 SQLite program the UNIQUE
constraint with INSERT OR IGNORE still keeps at most one row per triple — a
duplicate changes nothing — but the promisified db.run resolves undefined, so
a first POST_REACTION persists its row yet is never broadcast and every
POST_REACTION, first or duplicate, is answered only with the sender-only
ERROR "Failed to post reaction due to server error.", never the duplicate
message.  In the server.js program the reactions table has no uniqueness
constraint and every POST_REACTION — duplicate or not — inserts a fresh row
and is broadcast. -/
theorem c1_reaction_uniqueness (db : Db) (now : Int) (aid : Nat) (cid rt : String)
    (cts : Option Int) (hart : articleExists db aid = true) :
    (reactionExists db aid cid rt = false →
      Part001.handleMessage db now { type := "POST_REACTION", articleId := some aid, reaction := some { clientId := some cid, type := some rt, timestamp := cts } } =
        ({ db with reactions := db.reactions ++ [{ id := db.nextReactionId, articleId := aid, clientId := cid, type := rt, timestamp := now }], nextReactionId := db.nextReactionId + 1 },
         [Output.broadcast (Part001.Event.newReaction aid { id := db.nextReactionId, type := rt, clientId := cid, timestamp := now })]))
  ∧ (reactionExists db aid cid rt = true →
      Part001.handleMessage db now { type := "POST_REACTION", articleId := some aid, reaction := some { clientId := some cid, type := some rt, timestamp := cts } } =
        (db, [Output.reply (Part001.Event.error "You have already reacted with this type.")]))
  ∧ (reactionExists db aid cid rt = false →
      Part001.handleMessageSqlite db now { type := "POST_REACTION", articleId := some aid, reaction := some { clientId := some cid, type := some rt, timestamp := cts } } =
        ({ db with reactions := db.reactions ++ [{ id := db.nextReactionId, articleId := aid, clientId := cid, type := rt, timestamp := now }], nextReactionId := db.nextReactionId + 1 },
         [Output.reply (Part001.Event.error "Failed to post reaction due to server error.")]))
  ∧ (reactionExists db aid cid rt = true →
      Part001.handleMessageSqlite db now { type := "POST_REACTION", articleId := some aid, reaction := some { clientId := some cid, type := some rt, timestamp := cts } } =
        (db, [Output.reply (Part001.Event.error "Failed to post reaction due to server error.")]))
  ∧ (∀ ts : Int,
      ServerJsPg.handleMessage db { type := "POST_REACTION", articleId := some aid, reaction := some { clientId := some cid, type := some rt, timestamp := some ts } } =
        ({ db with reactions := db.reactions ++ [{ id := db.nextReactionId, articleId := aid, clientId := cid, type := rt, timestamp := ts }], nextReactionId := db.nextReactionId + 1 },
         [Output.broadcast (ServerJsPg.Event.newReaction aid { id := db.nextReactionId, payload := { clientId := some cid, type := some rt, timestamp := some ts } })])) := by
  refine ⟨fun hdup => ?_, fun hdup => ?_, fun hdup => ?_, fun hdup => ?_, fun ts => ?_⟩
  · rw [part001_msg_reaction]
    simp [Part001.handleReaction, hart, hdup]
  · rw [part001_msg_reaction]
    simp [Part001.handleReaction, hart, hdup]
  · rw [part001_sqlite_msg_reaction]
    simp [Part001.handleReactionSqlite, hart, hdup]
  · rw [part001_sqlite_msg_reaction]
    simp [Part001.handleReactionSqlite, hart, hdup]
  · rw [serverjs_msg_reaction]
    simp [ServerJsPg.handleReaction, ServerJsPg.addReaction, hart]

/-- Witness for c1_reaction_uniqueness at a concrete database in which client
"x" already reacted "love" to article 1. -/
theorem c1_witness :
    Part001.handleMessage dbDupSetup 6 { type := "POST_REACTION", articleId := some 1, reaction := some { clientId := some "x", type := some "love", timestamp := some 6 } } =
      (dbDupSetup, [Output.reply (Part001.Event.error "You have already reacted with this type.")]) :=
  (c1_reaction_uniqueness dbDupSetup 6 1 "x" "love" (some 6) (by decide)).2.1 (by decide)

/-- Claim C2 (amended): in the part_001 programs every stored and broadcast
timestamp of a successful mutation (publish, comment, reaction) equals the
server time `now` (`Date.now()` at processing), whatever timestamp field the
client payload carries; in the server.js (and part_000) programs the stored
and broadcast timestamp is taken from the client payload, as the
counterexample above shows. -/
theorem c2_server_assigned_timestamps (db : Db) (now : Int) :
    (∀ (a : ArticlePayload) (title content : String), a.title = some title →
      a.content = some content → a.categoryId = none →
      Part001.handleMessage db now { type := "PUBLISH_ARTICLE", article := some a } =
        ({ db with articles := db.articles ++ [{ id := db.nextArticleId, title := title, content := content, imageUrl := a.imageUrl, timestamp := now, categoryId := none }], nextArticleId := db.nextArticleId + 1 },
         [Output.broadcast (Part001.Event.newArticle { id := db.nextArticleId, title := title, content := content, imageUrl := a.imageUrl, timestamp := now, categoryId := none, category := none, comments := [], reactions := [] })]))
  ∧ (∀ (aid : Nat) (c : CommentPayload) (text : String), c.commentText = some text →
      articleExists db aid = true →
      Part001.handleMessage db now { type := "POST_COMMENT", articleId := some aid, comment := some c } =
        ({ db with comments := db.comments ++ [{ id := db.nextCommentId, articleId := aid, userName := jsOr c.userName "Anonymous", commentText := text, timestamp := now }], nextCommentId := db.nextCommentId + 1 },
         [Output.broadcast (Part001.Event.newComment aid { id := db.nextCommentId, userName := jsOr c.userName "Anonymous", commentText := text, timestamp := now })]))
  ∧ (∀ (aid : Nat) (cid rt : String) (cts : Option Int), articleExists db aid = true →
      reactionExists db aid cid rt = false →
      Part001.handleMessage db now { type := "POST_REACTION", articleId := some aid, reaction := some { clientId := some cid, type := some rt, timestamp := cts } } =
        ({ db with reactions := db.reactions ++ [{ id := db.nextReactionId, articleId := aid, clientId := cid, type := rt, timestamp := now }], nextReactionId := db.nextReactionId + 1 },
         [Output.broadcast (Part001.Event.newReaction aid { id := db.nextReactionId, type := rt, clientId := cid, timestamp := now })])) := by
  refine ⟨fun a title content ht hc hcat => ?_, fun aid c text htext hart => ?_,
    fun aid cid rt cts hart hdup => ?_⟩
  · rw [part001_msg_publish]
    simp [Part001.handlePublish, Part001.publishInsert, Part001.resolveCategory,
      jsTruthyNat, ht, hc, hcat]
  · rw [part001_msg_comment]
    simp [Part001.handleComment, Part001.insertComment, hart, htext]
  · rw [part001_msg_reaction]
    simp [Part001.handleReaction, hart, hdup]

/-- Witness for c2_server_assigned_timestamps: the stored and broadcast
timestamp is the server's 999, not the client-supplied 1. -/
theorem c2_witness :
    Part001.handleMessage dbEmpty 999 { type := "PUBLISH_ARTICLE", article := some { title := some "T3", content := some "B3", timestamp := some 1 } } =
      ({ dbEmpty with articles := [{ id := 1, title := "T3", content := "B3", imageUrl := none, timestamp := 999, categoryId := none }], nextArticleId := 2 },
       [Output.broadcast (Part001.Event.newArticle { id := 1, title := "T3", content := "B3", imageUrl := none, timestamp := 999, categoryId := none, category := none, comments := [], reactions := [] })]) :=
  (c2_server_assigned_timestamps dbEmpty 999).1
    { title := some "T3", content := some "B3", timestamp := some 1 } "T3" "B3" rfl rfl rfl

/-- Claim C4 (amended): in the first server.js program and the part_001
programs a new connection immediately gets the full snapshot (articles plus
categories) as a single INITIAL_DATA event sent to it alone, and an ERROR
event to it alone if the snapshot fetch fails; the part_000 program instead
sends the snapshot as ALL_ARTICLES with articles only, as the counterexample
above shows.  In every program the connection outputs are replies to
that connection only and the connection is never closed by this path. -/
theorem c4_initial_snapshot (db : Db) :
    Part001.onConnection db true = [Output.reply (Part001.Event.initialData (Part001.snapshot db) (Part001.categoriesByName db))]
  ∧ Part001.onConnection db false = [Output.reply (Part001.Event.error "Failed to load initial data.")]
  ∧ ServerJsPg.onConnection db true = [Output.reply (ServerJsPg.Event.initialData (ServerJsPg.getAllArticles db) (ServerJsPg.getAllCategories db))]
  ∧ ServerJsPg.onConnection db false = [Output.reply (ServerJsPg.Event.error "Failed to load initial data.")]
  ∧ Part000.onConnection db true = [Output.reply (Part000.Event.allArticles (Part000.getAllArticles db))]
  ∧ Part000.onConnection db false = [Output.reply (Part000.Event.error "Failed to load articles.")]
  ∧ (∀ up : Bool, ((Part001.onConnection db up).all fun o => !o.isClose && o.isReply) = true)
  ∧ (∀ up : Bool, ((ServerJsPg.onConnection db up).all fun o => !o.isClose && o.isReply) = true)
  ∧ (∀ up : Bool, ((Part000.onConnection db up).all fun o => !o.isClose && o.isReply) = true) := by
  refine ⟨rfl, rfl, rfl, rfl, rfl, rfl, ?_, ?_, ?_⟩ <;> intro up <;> cases up <;> rfl

/-- Claim C5: a POST_COMMENT whose articleId references no existing article
fails at the store with the foreign-key error (the spec's NotFound); the
failure is reported to the sender only, no comment row is persisted, and no
NEW_COMMENT broadcast is produced — in part_001 and in server.js alike. -/
theorem c5_comment_not_found (db : Db) (now : Int) (aid : Nat) (c : CommentPayload)
    (text : String) (hmiss : articleExists db aid = false)
    (htext : c.commentText = some text) :
    Part001.insertComment db aid (jsOr c.userName "Anonymous") text now =
      Except.error DbError.notFound
  ∧ Part001.handleMessage db now { type := "POST_COMMENT", articleId := some aid, comment := some c } =
      (db, [Output.reply (Part001.Event.error "Invalid message format or server error.")])
  ∧ (∀ (uname : String) (ts : Int), c.userName = some uname → c.timestamp = some ts →
      ServerJsPg.handleMessage db { type := "POST_COMMENT", articleId := some aid, comment := some c } =
        (db, [Output.reply (ServerJsPg.serverError DbError.notFound)])) := by
  refine ⟨?_, ?_, fun uname ts hu hts => ?_⟩
  · simp [Part001.insertComment, hmiss]
  · rw [part001_msg_comment]
    simp [Part001.handleComment, Part001.insertComment, hmiss, htext]
  · rw [serverjs_msg_comment]
    simp [ServerJsPg.handleComment, ServerJsPg.addComment, hmiss, htext, hu, hts]

/-- Witness for c5_comment_not_found: commenting on the nonexistent article 7
of the empty database is rejected with a sender-only error and changes
nothing. -/
theorem c5_witness :
    Part001.handleMessage dbEmpty 50 { type := "POST_COMMENT", articleId := some 7, comment := some { userName := some "u", commentText := some "hi", timestamp := some 3 } } =
      (dbEmpty, [Output.reply (Part001.Event.error "Invalid message format or server error.")]) :=
  (c5_comment_not_found dbEmpty 50 7
    { userName := some "u", commentText := some "hi", timestamp := some 3 } "hi"
    (by decide) rfl).2.1

/-- Claim C7 (amended): the broadcast() routine of server.js (and part_000)
delivers to exactly the open clients whose send succeeds — closed or erroring
transports are skipped silently and a throwing send is caught per client, so
every open client with a working transport receives the event no matter what
happens to the others.  The inline fan-out loops of part_001 lack the
per-send guard and abort on a throwing send, as the counterexample above
shows. -/
theorem c7_broadcast_fanout (clients : List WsClient) :
    ServerJsPg.broadcastDeliver clients =
      (clients.filter (fun c => c.readyState == OPEN && c.sendOk)).map WsClient.id
  ∧ (∀ c ∈ clients, c.readyState = OPEN → c.sendOk = true →
      c.id ∈ ServerJsPg.broadcastDeliver clients) := by
  have h1 : ∀ cl : List WsClient, ServerJsPg.broadcastDeliver cl =
      (cl.filter (fun c => c.readyState == OPEN && c.sendOk)).map WsClient.id := by
    intro cl
    induction cl with
    | nil => rfl
    | cons c cs ih =>
      cases hro : (c.readyState == OPEN) <;> cases hsk : c.sendOk <;>
        simp [ServerJsPg.broadcastDeliver, List.filter_cons, hro, hsk, ih]
  refine ⟨h1 clients, fun c hm hro hsk => ?_⟩
  rw [h1 clients]
  exact List.mem_map_of_mem _ (List.mem_filter.2 ⟨hm, by simp [hro, hsk]⟩)

/-- Witness for c7_broadcast_fanout: open client 3 receives the broadcast even
though client 2's send throws before it. -/
theorem c7_witness : (3 : Nat) ∈ ServerJsPg.broadcastDeliver clients3 :=
  (c7_broadcast_fanout clients3).2 { id := 3, readyState := 1, sendOk := true }
    (by decide) rfl rfl

/-- Claim C8: every sequence returned by the server.js getAllArticles is
newest-first by article timestamp, each article's comments are oldest-first by
comment timestamp, its reactions list is exactly the article's reaction rows
(order as scanned), and its category field is either absent or an existing
{id, name} category row. -/
theorem c8_list_articles_shape (db : Db) :
    (ServerJsPg.getAllArticles db).Pairwise (fun a b => b.timestamp ≤ a.timestamp)
  ∧ (∀ a ∈ ServerJsPg.getAllArticles db,
      a.comments.Pairwise (fun c d => c.timestamp ≤ d.timestamp))
  ∧ (∀ a ∈ ServerJsPg.getAllArticles db,
      a.reactions = (db.reactions.filter (fun r => r.articleId == a.id)).map
        (fun r => { clientId := r.clientId, type := r.type, timestamp := r.timestamp }))
  ∧ (∀ a ∈ ServerJsPg.getAllArticles db, ∀ cat : CategoryRow,
      a.category = some cat → cat ∈ db.categories) := by
  refine ⟨?_, ?_, ?_, ?_⟩
  · rw [ServerJsPg.getAllArticles, List.pairwise_map]
    exact List.sorted_insertionSort newestFirst db.articles
  · intro a ha
    rw [ServerJsPg.getAllArticles] at ha
    obtain ⟨row, hrow, rfl⟩ := List.mem_map.1 ha
    dsimp only
    rw [List.pairwise_map]
    exact List.sorted_insertionSort oldestFirst _
  · intro a ha
    rw [ServerJsPg.getAllArticles] at ha
    obtain ⟨row, hrow, rfl⟩ := List.mem_map.1 ha
    rfl
  · intro a ha cat hcat
    rw [ServerJsPg.getAllArticles] at ha
    obtain ⟨row, hrow, rfl⟩ := List.mem_map.1 ha
    dsimp only at hcat
    cases hcid : row.categoryId with
    | none => rw [hcid] at hcat; simp [ServerJsPg.resolveCategoryByName] at hcat
    | some cid =>
      rw [hcid] at hcat
      cases hfind : db.categories.find? (fun c2 => c2.id == cid) with
      | none => simp [ServerJsPg.resolveCategoryByName, hfind] at hcat
      | some c2 =>
        have hmem := List.mem_of_find?_eq_some hfind
        by_cases hn : c2.name = ""
        · simp [ServerJsPg.resolveCategoryByName, hfind, hn] at hcat
        · simp [ServerJsPg.resolveCategoryByName, hfind, hn] at hcat
          rwa [← hcat]

/-- Witness for c8_list_articles_shape: the comments of article 1 in the
sample snapshot come out oldest-first. -/
theorem c8_witness :
    (({ id := 1, title := "A1", content := "C1", imageUrl := none, timestamp := 50, category := some { id := 1, name := "General" }, comments := [{ userName := "bob", commentText := "yo", timestamp := 60 }, { userName := "alice", commentText := "hi", timestamp := 70 }], reactions := [{ clientId := "x", type := "love", timestamp := 5 }] } : ServerJsPg.ArticleOut)).comments.Pairwise
      (fun c d => c.timestamp ≤ d.timestamp) :=
  (c8_list_articles_shape dbShape).2.1
    { id := 1, title := "A1", content := "C1", imageUrl := none, timestamp := 50, category := some { id := 1, name := "General" }, comments := [{ userName := "bob", commentText := "yo", timestamp := 60 }, { userName := "alice", commentText := "hi", timestamp := 70 }], reactions := [{ clientId := "x", type := "love", timestamp := 5 }] }
    (by decide)

/-- Claim C9 (amended): for an inbound message whose type matches no
recognized case, the part_001 session replies to the sender only with an
ERROR whose message is "Unknown message type: " followed by the received
type, with no store write and no broadcast; the server.js session only logs
it — no reply at all, as the counterexample above shows — and likewise
performs no store write and produces no broadcast. -/
theorem c9_unknown_type (db : Db) (now : Int) (msg : Msg)
    (h1 : (msg.type == "PUBLISH_ARTICLE") = false)
    (h2 : (msg.type == "POST_COMMENT") = false)
    (h3 : (msg.type == "POST_REACTION") = false)
    (h4 : (msg.type == "GET_ALL_ARTICLES") = false)
    (h5 : (msg.type == "GET_ALL_CATEGORIES") = false) :
    Part001.handleMessage db now msg =
      (db, [Output.reply (Part001.Event.error ("Unknown message type: " ++ msg.type))])
  ∧ ServerJsPg.handleMessage db msg = (db, []) := by
  constructor
  · simp [Part001.handleMessage, h1, h2, h3]
  · simp [ServerJsPg.handleMessage, h1, h2, h3, h4, h5]

/-- Witness for c9_unknown_type at the unrecognized type "PING". -/
theorem c9_witness :
    Part001.handleMessage dbOneArticle 1 { type := "PING" } =
      (dbOneArticle, [Output.reply (Part001.Event.error "Unknown message type: PING")])
  ∧ ServerJsPg.handleMessage dbOneArticle { type := "PING" } = (dbOneArticle, []) :=
  c9_unknown_type dbOneArticle 1 { type := "PING" }
    (by decide) (by decide) (by decide) (by decide) (by decide)

/-- Every program of a scheduled session occurs as a sublist of the trace:
each request's steps appear in its own program order. -/
theorem sched_get_sublist {progs : List (List SessionSched.Step)}
    {tr : List SessionSched.Step} (h : SessionSched.Sched progs tr) :
    ∀ (i : Nat) (hi : i < progs.length), (progs.get ⟨i, hi⟩).Sublist tr := by
  induction h with
  | done progs hp =>
    intro i hi
    rw [hp _ (List.get_mem progs i hi)]
  | take j s rest tr2 progs hj hget hrec ih =>
    intro i hi
    by_cases hij : j = i
    · subst hij
      rw [show progs.get ⟨j, hi⟩ = s :: rest from hget]
      have hj2 : j < (progs.set j rest).length := by rw [List.length_set]; exact hj
      have hr : rest.Sublist tr2 := by
        have h2 := ih j hj2
        rwa [List.get_set_eq] at h2
      exact hr.cons₂ s
    · have hi2 : i < (progs.set j rest).length := by rw [List.length_set]; exact hi
      have h2 := ih i hi2
      rw [List.get_set_ne hij hi2] at h2
      exact h2.cons s

/-- Taking the head step of the i-th program permutes the flattened step
multiset by one cons. -/
theorem flatten_set_perm {α : Type} :
    ∀ (progs : List (List α)) (i : Nat) (hi : i < progs.length) (s : α) (rest : List α),
      progs.get ⟨i, hi⟩ = s :: rest → progs.flatten.Perm (s :: (progs.set i rest).flatten) := by
  intro progs
  induction progs with
  | nil => intro i hi; exact absurd hi (by simp)
  | cons p ps ih =>
    intro i hi s rest hget
    cases i with
    | zero =>
      have hp : p = s :: rest := hget
      subst hp
      exact List.Perm.refl _
    | succ j =>
      have hj : j < ps.length := Nat.lt_of_succ_lt_succ hi
      have hget2 : ps.get ⟨j, hj⟩ = s :: rest := hget
      have hperm := ih j hj s rest hget2
      exact (List.Perm.append_left p hperm).trans List.perm_middle

/-- A session trace is a permutation of the flattened step programs. -/
theorem sched_flatten_perm {progs : List (List SessionSched.Step)}
    {tr : List SessionSched.Step} (h : SessionSched.Sched progs tr) :
    tr.Perm progs.flatten := by
  induction h with
  | done progs hp =>
    rw [List.flatten_eq_nil_iff.mpr hp]
  | take j s rest tr2 progs hj hget hrec ih =>
    exact (List.Perm.cons s ih).trans (flatten_set_perm progs j hj s rest hget).symm

/-- The broadcast step of request k occurs exactly once in the flattened
programs of an n-request session (and never when k is not a request). -/
theorem sessionPrograms_flatten_count (n k : Nat) :
    (SessionSched.sessionPrograms n).flatten.count (SessionSched.Step.broadcastSent k) =
      if k < n then 1 else 0 := by
  induction n with
  | zero => simp [SessionSched.sessionPrograms]
  | succ n ih =>
    have hsplit : (SessionSched.sessionPrograms (n + 1)).flatten =
        (SessionSched.sessionPrograms n).flatten ++ SessionSched.requestProgram n := by
      simp [SessionSched.sessionPrograms, List.range_succ]
    have hc : (SessionSched.requestProgram n).count (SessionSched.Step.broadcastSent k) =
        if n = k then 1 else 0 := by
      simp [SessionSched.requestProgram, List.count_cons, List.count_nil]
    rw [hsplit, List.count_append, ih, hc]
    split_ifs <;> omega

/-- A two-element sublist splits its host list at the second element with the
first element in the prefix. -/
theorem pair_sublist_split {α : Type} {a b : α} {tr : List α}
    (h : [a, b].Sublist tr) : ∃ l1 l2, tr = l1 ++ b :: l2 ∧ a ∈ l1 := by
  induction tr with
  | nil => simp at h
  | cons x xs ih =>
    cases h with
    | cons _ h2 =>
      obtain ⟨l1, l2, rfl, ha⟩ := ih h2
      exact ⟨x :: l1, l2, rfl, List.mem_cons_of_mem x ha⟩
    | cons₂ _ h2 =>
      have hb : b ∈ xs := h2.subset (List.mem_singleton_self b)
      obtain ⟨s, t, rfl⟩ := List.append_of_mem hb
      exact ⟨a :: s, t, rfl, List.mem_cons_self a s⟩

/-- Two splits of a list at an element absent from both prefixes have equal
prefixes. -/
theorem split_prefix_unique {α : Type} {b : α} :
    ∀ {l1 m1 l2 m2 : List α}, b ∉ l1 → b ∉ m1 → l1 ++ b :: l2 = m1 ++ b :: m2 → l1 = m1 := by
  intro l1
  induction l1 with
  | nil =>
    intro m1 l2 m2 h1 h2 he
    cases m1 with
    | nil => rfl
    | cons y ys =>
      simp only [List.nil_append, List.cons_append] at he
      have hb := List.cons.inj he
      exact absurd (by rw [hb.1]; exact List.mem_cons_self y ys) h2
  | cons x xs ih =>
    intro m1 l2 m2 h1 h2 he
    cases m1 with
    | nil =>
      simp only [List.nil_append, List.cons_append] at he
      have hb := List.cons.inj he
      exact absurd (by rw [← hb.1]; exact List.mem_cons_self x xs) h1
    | cons y ys =>
      simp only [List.cons_append] at he
      have hb := List.cons.inj he
      have h1b : b ∉ xs := fun hm => h1 (List.mem_cons_of_mem x hm)
      have h2b : b ∉ ys := fun hm => h2 (List.mem_cons_of_mem y hm)
      rw [hb.1, ih h1b h2b hb.2]

/-- Claim C6: in every execution of a session's n mutation requests — every
cooperative interleaving of the per-request step programs the handlers
define — no NEW_ARTICLE / NEW_COMMENT / NEW_REACTION broadcast step precedes
the completion of its own request's store insert (persist-then-publish), and
each request's steps (invocation, insert, broadcast) occur in program order
within the trace. -/
theorem c6_persist_then_publish (n : Nat) (tr : List SessionSched.Step)
    (hs : SessionSched.Sched (SessionSched.sessionPrograms n) tr) :
    (∀ (k : Nat) (l1 l2 : List SessionSched.Step),
       tr = l1 ++ SessionSched.Step.broadcastSent k :: l2 →
         SessionSched.Step.insertDone k ∈ l1)
  ∧ (∀ k, k < n → (SessionSched.requestProgram k).Sublist tr) := by
  have hsub : ∀ k, k < n → (SessionSched.requestProgram k).Sublist tr := by
    intro k hk
    have hlen : k < (SessionSched.sessionPrograms n).length := by
      simpa [SessionSched.sessionPrograms] using hk
    have hget : (SessionSched.sessionPrograms n).get ⟨k, hlen⟩ =
        SessionSched.requestProgram k := by
      simp [SessionSched.sessionPrograms]
    rw [← hget]
    exact sched_get_sublist hs k hlen
  refine ⟨?_, hsub⟩
  intro k l1 l2 htr
  have hperm := sched_flatten_perm hs
  have hcount : tr.count (SessionSched.Step.broadcastSent k) = if k < n then 1 else 0 := by
    rw [hperm.count_eq]
    exact sessionPrograms_flatten_count n k
  by_cases hk : k < n
  · have hpair : [SessionSched.Step.insertDone k,
        SessionSched.Step.broadcastSent k].Sublist tr := by
      refine List.Sublist.trans ?_ (hsub k hk)
      exact List.sublist_cons_self _ _
    obtain ⟨m1, m2, hm, hmem⟩ := pair_sublist_split hpair
    have hc1 : tr.count (SessionSched.Step.broadcastSent k) = 1 := by
      rw [hcount]; simp [hk]
    have hnl1 : SessionSched.Step.broadcastSent k ∉ l1 := by
      intro hin
      rw [htr, List.count_append, List.count_cons_self] at hc1
      have hp := List.count_pos_iff.mpr hin
      omega
    have hnm1 : SessionSched.Step.broadcastSent k ∉ m1 := by
      intro hin
      rw [hm, List.count_append, List.count_cons_self] at hc1
      have hp := List.count_pos_iff.mpr hin
      omega
    have heq := split_prefix_unique hnl1 hnm1 (htr.symm.trans hm)
    rw [heq]
    exact hmem
  · exfalso
    have hc0 : tr.count (SessionSched.Step.broadcastSent k) = 0 := by
      rw [hcount]; simp [hk]
    rw [htr, List.count_append, List.count_cons_self] at hc0
    omega

/-- A concrete sequential execution of a one-request session. -/
theorem sched_seq1 :
    SessionSched.Sched (SessionSched.sessionPrograms 1)
      [SessionSched.Step.recv 0, SessionSched.Step.insertDone 0,
       SessionSched.Step.broadcastSent 0] := by
  refine SessionSched.Sched.take 0 (SessionSched.Step.recv 0)
    [SessionSched.Step.insertDone 0, SessionSched.Step.broadcastSent 0] _ _
    (by decide) (by decide) ?_
  refine SessionSched.Sched.take 0 (SessionSched.Step.insertDone 0)
    [SessionSched.Step.broadcastSent 0] _ _ (by decide) (by decide) ?_
  refine SessionSched.Sched.take 0 (SessionSched.Step.broadcastSent 0) [] _ _
    (by decide) (by decide) ?_
  exact SessionSched.Sched.done _ (by decide)

/-- Witness for c6_persist_then_publish on the sequential one-request
execution: at the broadcast's position the insert is already in the prefix. -/
theorem c6_witness :
    SessionSched.Step.insertDone 0 ∈
      [SessionSched.Step.recv 0, SessionSched.Step.insertDone 0] :=
  (c6_persist_then_publish 1 _ sched_seq1).1 0
    [SessionSched.Step.recv 0, SessionSched.Step.insertDone 0] [] rfl
